import Mathlib

/-!
Shallow embedding of the real-time synchronization and streaming-inference
core of the classroom communication application (teacher page, deaf-student
page, mute-student page).  Python source functions are translated one-to-one
into executable Lean definitions; the theorems below settle the frozen claims
about the specified behaviour.
-/

namespace ClassroomCore

/-! ## Python string helpers -/

/-- Whitespace test matching Python `str.split()` separators. -/
def isPySpace (c : Char) : Bool :=
  c == ' ' || c == '\t' || c == '\n' || c == '\r'

/-- Accumulator-style worker for `pySplit`: `cur` holds the characters of
the word in progress, in reverse. -/
def pySplitAux : List Char → List Char → List String
  | cur, [] => if cur = [] then [] else [⟨cur.reverse⟩]
  | cur, c :: cs =>
    if isPySpace c then
      if cur = [] then pySplitAux [] cs else ⟨cur.reverse⟩ :: pySplitAux [] cs
    else pySplitAux (c :: cur) cs

/-- Python `str.split()` with no arguments: split on whitespace runs,
dropping empty pieces. -/
def pySplit (s : String) : List String :=
  pySplitAux [] s.data

/-- Python `str.lower()` (ASCII lowering suffices for the texts involved). -/
def pyLower (s : String) : String :=
  ⟨s.data.map Char.toLower⟩

/-- Drop leading whitespace characters. -/
def dropLeadingWS : List Char → List Char
  | [] => []
  | c :: cs => if isPySpace c then dropLeadingWS cs else c :: cs

/-- Python `str.strip()`: remove leading and trailing whitespace. -/
def pyStrip (s : String) : String :=
  ⟨((dropLeadingWS s.data).reverse |> dropLeadingWS).reverse⟩

/-- Does `p` occur as a prefix of `s` (character-wise)? -/
def startsWithChars : List Char → List Char → Bool
  | [], _ => true
  | _ :: _, [] => false
  | p :: ps, c :: cs => p == c && startsWithChars ps cs

/-- Fuelled worker for `pyReplace`; the fuel is initialized to the string
length and every step consumes at least one character, so it never runs
out. -/
def replaceFrom (pat repl : List Char) : Nat → List Char → List Char
  | 0, s => s
  | _ + 1, [] => []
  | fuel + 1, c :: cs =>
    if pat ≠ [] ∧ startsWithChars pat (c :: cs) then
      repl ++ replaceFrom pat repl fuel ((c :: cs).drop pat.length)
    else
      c :: replaceFrom pat repl fuel cs

/-- Python `str.replace(pat, repl)`: replace all non-overlapping
occurrences, left to right. -/
def pyReplace (s pat repl : String) : String :=
  ⟨replaceFrom pat.data repl.data s.data.length s.data⟩

/-- Order-preserving removal of duplicates keeping the first occurrence,
as produced by the Python `seen`-set loop; also used to enumerate the
distinct elements of a list (`set(xs)` cardinalities). -/
def pyDedup {α : Type} [DecidableEq α] (l : List α) : List α :=
  l.foldl (fun acc w => if w ∈ acc then acc else acc ++ [w]) []

/-! ## Gesture recognizer (MEDIAPIPE_SCRIPT in mute_studentpage.py)

The per-frame recognition loop: raw total finger count clamped to 10,
a `deque(maxlen=5)` of recent counts, majority smoothing once the window
is full, and the repeat-count debounce state machine that appends a sign
phrase to the running sentence. -/

/-- `FINGER_SIGNS` dictionary from the script (including the source's
typo "RPEPEAT THAT" and the trailing space in "GOT IT "). -/
def fingerSigns (n : Nat) : Option String :=
  match n with
  | 1 => some "HELLO"
  | 2 => some "PLEASE"
  | 3 => some "RPEPEAT THAT"
  | 4 => some "I DID NOT UNDERSTAND"
  | 5 => some "STOP"
  | 6 => some "THANKS"
  | 7 => some "GREAT"
  | 8 => some "GOT IT "
  | 9 => some "YES"
  | 10 => some "GOOD"
  | _ => none

/-- `FINGER_SIGNS.get(smoothed_count, "UNKNOWN")`. -/
def signText (n : Nat) : String :=
  (fingerSigns n).getD "UNKNOWN"

/-- `REPEAT_THRESHOLD = 10`. -/
def REPEAT_THRESHOLD : Nat := 10

/-- Appending to `finger_count_queue = deque(maxlen=5)`: the oldest entry
is dropped once the window holds five counts. -/
def pushQueue (q : List Nat) (c : Nat) : List Nat :=
  let q2 := q ++ [c]
  if q2.length > 5 then q2.tail else q2

/-- `max(set(queue), key=queue.count)`: a distinct value of the window with
maximal multiplicity (ties keep the earlier candidate; the claims only
exercise windows with a unique majority value). -/
def pyMajority (q : List Nat) : Nat :=
  match pyDedup q with
  | [] => 0
  | v :: vs => vs.foldl (fun best u => if q.count u > q.count best then u else best) v

/-- Mutable state of the recognition loop: the smoothing window,
`last_finger_count` (initially `-1`), `repeat_count`, and the running
`sentence` string. -/
structure GestureState where
  fingerCountQueue : List Nat
  lastFingerCount : Int
  repeatCount : Nat
  sentence : String
deriving DecidableEq

/-- Initial state of the script: empty window, `last_finger_count = -1`,
`repeat_count = 0`, empty sentence. -/
def gestureInit : GestureState :=
  { fingerCountQueue := [], lastFingerCount := -1, repeatCount := 0, sentence := "" }

/-- One loop iteration for a frame in which hands are detected and the raw
summed finger count is `totalFingers`:
clamp (`min(total_fingers, 10)`), push into the window, smooth by majority
once the window is full, update `repeat_count` / `last_finger_count`, and
commit `sign_text + " "` onto the sentence exactly when `repeat_count`
reaches `REPEAT_THRESHOLD` with a non-zero smoothed count (resetting
`repeat_count` to zero on commit). -/
def gestureStep (st : GestureState) (totalFingers : Nat) : GestureState :=
  let cur := min totalFingers 10
  let q := pushQueue st.fingerCountQueue cur
  let smoothed := if q.length = 5 then pyMajority q else cur
  let rcLc : Nat × Int :=
    if (smoothed : Int) = st.lastFingerCount then (st.repeatCount + 1, st.lastFingerCount)
    else (0, (smoothed : Int))
  if rcLc.1 = REPEAT_THRESHOLD ∧ 0 < smoothed then
    { fingerCountQueue := q, lastFingerCount := rcLc.2, repeatCount := 0,
      sentence := st.sentence ++ signText smoothed ++ " " }
  else
    { fingerCountQueue := q, lastFingerCount := rcLc.2, repeatCount := rcLc.1,
      sentence := st.sentence }

/-- Run the recognition loop from the initial state over a stream of raw
per-frame finger counts. -/
def gestureRun (frames : List Nat) : GestureState :=
  frames.foldl gestureStep gestureInit

/-! ## Streaming transcriber (WhisperSTTProcessor in deaf_student_page.py)

`self.sample_rate = 16000`, `self.buffer_duration = 3`,
`self.processing_interval = 2`.  Audio chunks are int16 PCM buffers,
normalized to float32 by dividing by 32768 before buffering; since that
normalization is injective and only lengths and slices of the buffer
matter, samples are represented here by their raw int16 values. -/

/-- `self.sample_rate`. -/
def SAMPLE_RATE : Nat := 16000

/-- `_clean_transcription`: when the text has more than 10 words and a
unique-word ratio below 0.3, keep only the first occurrence of each word
truncated to 20 words; then normalize " . . ." to "...", ".." to "." and
double spaces, and strip. -/
def cleanTranscription (text : String) : String :=
  if text = "" then ""
  else
    let words := pySplit text
    let text1 :=
      if words.length > 10 ∧ ((pyDedup words).length : ℚ) / (words.length : ℚ) < 3 / 10 then
        String.intercalate " " ((pyDedup words).take 20)
      else text
    pyStrip (pyReplace (pyReplace (pyReplace text1 " . . ." "...") ".." ".") "  " " ")

/-- The word set `set(text.lower().split())` used by `_is_too_similar`,
as its first-occurrence enumeration. -/
def wordSetOf (t : String) : List String :=
  pyDedup (pySplit (pyLower t))

/-- `len(words1.intersection(words2))` in `_is_too_similar`. -/
def interCount (t1 t2 : String) : Nat :=
  ((wordSetOf t1).filter (fun w => w ∈ wordSetOf t2)).length

/-- `len(words1.union(words2))` in `_is_too_similar`. -/
def uniCount (t1 t2 : String) : Nat :=
  (wordSetOf t1 ++ (wordSetOf t2).filter (fun w => w ∉ wordSetOf t1)).length

/-- The Jaccard similarity value `intersection / union` computed by
`_is_too_similar` over the two word sets. -/
def similarity (t1 t2 : String) : ℚ :=
  (interCount t1 t2 : ℚ) / (uniCount t1 t2 : ℚ)

/-- `_is_too_similar(text1, text2, threshold=0.7)`: false when either text
or word set is empty (or the union is empty), otherwise true exactly when
the Jaccard similarity exceeds the threshold. -/
def isTooSimilar (t1 t2 : String) : Bool :=
  if t1 = "" ∨ t2 = "" then false
  else if wordSetOf t1 = [] ∨ wordSetOf t2 = [] then false
  else if uniCount t1 t2 = 0 then false
  else decide (similarity t1 t2 > 7 / 10)

/-- Mutable state of the transcriber relevant to `_process_buffer`:
`self.audio_buffer` (a list of sample arrays), `self.last_transcription`
and `self.last_processing_time` (in whole seconds). -/
structure STTState where
  audioBuffer : List (List Int)
  lastTranscription : String
  lastProcessingTime : Nat
deriving DecidableEq

/-- `_process_buffer`, parameterized by the engine's raw transcription
output `rawText` for the concatenated buffer (the Whisper call itself is an
external collaborator) and the current time `now`.  Returns the updated
state and the emitted text, if any: empty buffers and audio shorter than
0.8 s are rejected; the raw text is stripped and, when non-empty, cleaned;
a text too similar to the previous accepted transcription returns with the
state untouched; otherwise the text is recorded, the buffer is trimmed to
its last second of samples, the dispatch time is stamped and the text is
emitted. -/
def processBufferWithText (st : STTState) (now : Nat) (rawText : String) :
    STTState × Option String :=
  if st.audioBuffer = [] then (st, none)
  else
    let audio := st.audioBuffer.flatten
    if audio.length < SAMPLE_RATE * 8 / 10 then (st, none)
    else
      let text0 := pyStrip rawText
      if text0 = "" then (st, none)
      else
        let text := cleanTranscription text0
        if isTooSimilar text st.lastTranscription then (st, none)
        else
          let keepSamples := SAMPLE_RATE
          let newBuffer :=
            if audio.length > keepSamples then [audio.drop (audio.length - keepSamples)]
            else [audio]
          ({ audioBuffer := newBuffer, lastTranscription := text,
             lastProcessingTime := now }, some text)

/-! ## Visualization chunk controller (StudentPage in deaf_student_page.py) -/

/-- `self.word_count_threshold = 20`. -/
def WORD_COUNT_THRESHOLD : Nat := 20

/-- `self.visualization_cooldown = 10` (seconds). -/
def VISUALIZATION_COOLDOWN : Nat := 10

/-- Visualization-related state of StudentPage: the running word buffer,
the monotone total of processed words, the time of the last generation and
the generation-in-flight flag. -/
structure VizState where
  wordBuffer : List String
  totalWordsProcessed : Nat
  lastVisualizationTime : Nat
  isGeneratingVisual : Bool
deriving DecidableEq

/-- `process_for_visualization(transcript)` called at time `now`: returns
the updated state together with the 20-word chunk text handed to
`generate_visualization`, when one is triggered.  The cooldown /
in-flight gate is checked FIRST and returns before any words are added to
the buffer; only past the gate are the transcript's words appended, the
total raised, and a chunk possibly cut from the front of the buffer. -/
def processForVisualization (st : VizState) (now : Nat) (transcript : String) :
    VizState × Option String :=
  if now - st.lastVisualizationTime < VISUALIZATION_COOLDOWN ∨ st.isGeneratingVisual then
    (st, none)
  else
    let words := pySplit transcript
    if words.length = 0 then (st, none)
    else
      let buf := st.wordBuffer ++ words
      let total := st.totalWordsProcessed + words.length
      if buf.length ≥ WORD_COUNT_THRESHOLD then
        let chunksNeeded := total / WORD_COUNT_THRESHOLD
        let chunksGenerated := (total - buf.length) / WORD_COUNT_THRESHOLD
        if chunksNeeded > chunksGenerated then
          ({ wordBuffer := buf.drop WORD_COUNT_THRESHOLD,
             totalWordsProcessed := total,
             lastVisualizationTime := now,
             isGeneratingVisual := true },
           some (String.intercalate " " (buf.take WORD_COUNT_THRESHOLD)))
        else ({ st with wordBuffer := buf, totalWordsProcessed := total }, none)
      else ({ st with wordBuffer := buf, totalWordsProcessed := total }, none)

/-- `_reset_generation_flag`. -/
def resetGenerationFlag (st : VizState) : VizState :=
  { st with isGeneratingVisual := false }

/-! ## Visualization cache (`self.visual_cache` in `_generate_visual_async`)

A Python dict preserves insertion order, and assigning to an existing key
keeps its position; the cache is modelled as an insertion-ordered
association list from cache keys (`hash(chunk_text[:50])`) to rendered
artifacts. -/

/-- `self.visual_cache[cache_key] = pixmap`. -/
def cacheAssign {α : Type} (cache : List (Int × α)) (k : Int) (v : α) : List (Int × α) :=
  if cache.any (fun p => p.1 == k) then
    cache.map (fun p => if p.1 = k then (k, v) else p)
  else cache ++ [(k, v)]

/-- The insertion followed by the bound enforcement in
`_generate_visual_async`: store under the key, then, if the cache now
exceeds 10 entries, `pop(next(iter(cache)))` — remove the oldest entry. -/
def cacheInsert {α : Type} (cache : List (Int × α)) (k : Int) (v : α) : List (Int × α) :=
  let c := cacheAssign cache k v
  if c.length > 10 then c.tail else c

/-- A sequence of successful generations, each inserting into the cache. -/
def cacheInsertAll {α : Type} (cache : List (Int × α)) (kvs : List (Int × α)) :
    List (Int × α) :=
  kvs.foldl (fun c kv => cacheInsert c kv.1 kv.2) cache

/-! ## Change-feed pollers (teacher_page.py, deaf_student_page.py,
mute_studentpage.py) -/

/-- A chat message as stored in `chat_messages`; `sender` and `message`
mirror `msg.get("sender")` and `msg.get("message", "")` (timestamp and
display-name fields play no role in the polling logic). -/
structure ChatMessage where
  sender : String
  message : String
deriving DecidableEq

/-- Shared shape of the transcript check in teacher_page's
StudentTranscriptListener.run (field `student_transcript`) and
deaf_student_page's FirebaseListener.run (field `current_transcript`):
emit when the observed value is non-empty and differs from the tracked
last value, which is updated only on emission. -/
def transcriptPollStep (last : String) (obs : String) : String × Option String :=
  if obs ≠ "" ∧ obs ≠ last then (obs, some obs) else (last, none)

/-- Transcript check in mute_studentpage's FirebaseListener.run (field
`student_transcript`): `last_transcript` is updated on EVERY change, even
to the empty string; emission additionally requires non-emptiness. -/
def muteTranscriptPollStep (last : String) (obs : String) : String × Option String :=
  if obs ≠ last then (obs, if obs ≠ "" then some obs else none) else (last, none)

/-- Emissions of the teacher/deaf-variant transcript poller across a
sequence of observed values. -/
def teacherTranscriptRun (last : String) : List String → List String
  | [] => []
  | o :: os =>
    ((transcriptPollStep last o).2).toList ++
      teacherTranscriptRun (transcriptPollStep last o).1 os

/-- Emissions of the mute-variant transcript poller across a sequence of
observed values. -/
def muteTranscriptRun (last : String) : List String → List String
  | [] => []
  | o :: os =>
    ((muteTranscriptPollStep last o).2).toList ++
      muteTranscriptRun (muteTranscriptPollStep last o).1 os

/-- Loop over the newly appended messages in teacher_page's
StudentTranscriptListener.run: emit a message when its sender is
"student" and its text differs from `self.last_chat_message`, updating
that tracker on each emission.  Returns the final tracker value and the
emitted messages in order. -/
def emitStudentMessages (lastMsg : String) : List ChatMessage → String × List ChatMessage
  | [] => (lastMsg, [])
  | m :: ms =>
    if m.sender = "student" then
      if m.message ≠ lastMsg then
        ((emitStudentMessages m.message ms).1, m :: (emitStudentMessages m.message ms).2)
      else emitStudentMessages lastMsg ms
    else emitStudentMessages lastMsg ms

/-- Chat-related state of teacher_page's listener: `self.last_chat_count`
and `self.last_chat_message`. -/
structure TeacherChatState where
  lastChatCount : Nat
  lastChatMessage : String
deriving DecidableEq

/-- Chat portion of one poll of StudentTranscriptListener.run: when the
chat list has grown past `last_chat_count`, process the appended slice
`chat_messages[last_chat_count:]` and record the new count. -/
def teacherChatPoll (st : TeacherChatState) (chat : List ChatMessage) :
    TeacherChatState × List ChatMessage :=
  if chat.length > st.lastChatCount then
    (⟨chat.length, (emitStudentMessages st.lastChatMessage (chat.drop st.lastChatCount)).1⟩,
      (emitStudentMessages st.lastChatMessage (chat.drop st.lastChatCount)).2)
  else (st, [])

/-- Chat portion of one poll of deaf_student_page's FirebaseListener.run:
every (well-formed) message of the appended slice is emitted, with no
sender filter; the count is recorded afterwards. -/
def deafChatPoll (lastChatCount : Nat) (chat : List ChatMessage) :
    Nat × List ChatMessage :=
  if chat.length > lastChatCount then (chat.length, chat.drop lastChatCount)
  else (lastChatCount, [])

/-! ## Speech output queue (TextToSpeechEngine in teacher_page.py) -/

/-- `speak(word)`: append `word.strip()` to the FIFO only when it is
non-empty and longer than one character after stripping. -/
def ttsEnqueue (q : List String) (word : String) : List String :=
  if pyStrip word ≠ "" ∧ (pyStrip word).length > 1 then q ++ [pyStrip word] else q

/-- The pacing delay `0.5 + len(word) * 0.1` seconds that `_process_queue`
sleeps after issuing the asynchronous `Speak` call, before clearing
`is_speaking`. -/
def ttsDelay (w : String) : ℚ :=
  1 / 2 + (w.length : ℚ) * (1 / 10)

/-- Start times of the successive synthesis calls issued by the single
consumer loop, starting at time `t`: the loop dequeues one word at a time
(guarded by `is_speaking`), so each call starts exactly one pacing delay
after the previous one in this model; the loop's additional 0.05 s polling
sleeps only widen the gaps. -/
def ttsScheduleFrom (t : ℚ) : List String → List (String × ℚ)
  | [] => []
  | w :: ws => (w, t) :: ttsScheduleFrom (t + ttsDelay w) ws

/-- Synthesis schedule for a queue processed from time 0. -/
def ttsSchedule (ws : List String) : List (String × ℚ) :=
  ttsScheduleFrom 0 ws

/-! ## Session record and the deaf student's join patch
(deaf_student_page.py `_check_session_async`, teacher_page.py listener) -/

/-- The session record JSON document. -/
structure Session where
  session_code : String
  session_name : String
  status : String
  current_transcript : String
  student_transcript : String
  student_name : String
  deaf_student_name : String
  chat_messages : List ChatMessage
  created_at : Int
  last_updated : Int
deriving DecidableEq

/-- A partial update sent to the PATCH endpoint: only the listed fields. -/
structure SessionPatch where
  session_code : Option String := none
  session_name : Option String := none
  status : Option String := none
  current_transcript : Option String := none
  student_transcript : Option String := none
  student_name : Option String := none
  deaf_student_name : Option String := none
  chat_messages : Option (List ChatMessage) := none
  created_at : Option Int := none
  last_updated : Option Int := none
deriving DecidableEq

/-- HTTP PATCH merge semantics of the store's REST endpoint: fields present
in the update data replace the stored ones; all others are kept. -/
def applyPatch (s : Session) (p : SessionPatch) : Session :=
  { session_code := p.session_code.getD s.session_code,
    session_name := p.session_name.getD s.session_name,
    status := p.status.getD s.status,
    current_transcript := p.current_transcript.getD s.current_transcript,
    student_transcript := p.student_transcript.getD s.student_transcript,
    student_name := p.student_name.getD s.student_name,
    deaf_student_name := p.deaf_student_name.getD s.deaf_student_name,
    chat_messages := p.chat_messages.getD s.chat_messages,
    created_at := p.created_at.getD s.created_at,
    last_updated := p.last_updated.getD s.last_updated }

/-- The `update_data` dict built in `StudentPage._check_session_async`:
only `deaf_student_name` and `last_updated`. -/
def joinUpdateData (name : String) (now : Int) : SessionPatch :=
  { deaf_student_name := some name, last_updated := some now }

/-- Student-name check in StudentTranscriptListener.run: emit the observed
`student_name` when it differs from the tracked value. -/
def namePollStep (tracked : String) (obs : String) : String × Option String :=
  if obs ≠ tracked then (obs, some obs) else (tracked, none)

end ClassroomCore


namespace ClassroomCore

/-! ### Helper lemmas about the transcriber's similarity check -/

lemma interCount_zero_left {t1 t2 : String} (h : wordSetOf t1 = []) :
    interCount t1 t2 = 0 := by
  simp [interCount, h]

lemma interCount_zero_right {t1 t2 : String} (h : wordSetOf t2 = []) :
    interCount t1 t2 = 0 := by
  simp [interCount, h, List.filter_eq_nil_iff]

lemma wordSetOf_nil_of_uniCount_zero {t1 t2 : String} (h : uniCount t1 t2 = 0) :
    wordSetOf t1 = [] := by
  unfold uniCount at h
  rw [List.length_append, Nat.add_eq_zero] at h
  exact List.eq_nil_of_length_eq_zero h.1

lemma similarity_gt_iff (t1 t2 : String) (h : uniCount t1 t2 ≠ 0) :
    (similarity t1 t2 > 7 / 10) ↔ 10 * interCount t1 t2 > 7 * uniCount t1 t2 := by
  have hu : (0 : ℚ) < (uniCount t1 t2 : ℚ) := by
    exact_mod_cast Nat.pos_of_ne_zero h
  rw [similarity, gt_iff_lt, div_lt_div_iff₀ (by norm_num) hu]
  constructor
  · intro hx
    have hx' : ((7 * uniCount t1 t2 : Nat) : ℚ) < ((10 * interCount t1 t2 : Nat) : ℚ) := by
      push_cast
      linarith
    exact_mod_cast hx'
  · intro hx
    have hx' : ((7 * uniCount t1 t2 : Nat) : ℚ) < ((10 * interCount t1 t2 : Nat) : ℚ) := by
      exact_mod_cast hx
    push_cast at hx'
    linarith

/-- The float comparison `intersection / union > 0.7` agrees with the
integer comparison `10 * intersection > 7 * union` on every reachable
branch, so `_is_too_similar` can be evaluated without rational division. -/
lemma isTooSimilar_eq_natCompare (t1 t2 : String) :
    isTooSimilar t1 t2 = decide (10 * interCount t1 t2 > 7 * uniCount t1 t2) := by
  unfold isTooSimilar
  split_ifs with h1 h2 h3
  · have hi : interCount t1 t2 = 0 := by
      rcases h1 with h | h
      · exact interCount_zero_left (by rw [h]; rfl)
      · exact interCount_zero_right (by rw [h]; rfl)
    simp [hi]
  · have hi : interCount t1 t2 = 0 := by
      rcases h2 with h | h
      · exact interCount_zero_left h
      · exact interCount_zero_right h
    simp [hi]
  · have hi : interCount t1 t2 = 0 :=
      interCount_zero_left (wordSetOf_nil_of_uniCount_zero h3)
    simp [hi]
  · rw [decide_eq_decide]
    exact similarity_gt_iff t1 t2 h3

/-! ### Helper lemmas evaluating `_process_buffer` branches -/

/-- When the buffer holds enough audio and the cleaned text is not a
near-repeat, `_process_buffer` records the text, trims the buffer, stamps
the time and emits. -/
lemma processBuffer_emits (st : STTState) (now : Nat) (raw : String)
    (h1 : st.audioBuffer ≠ [])
    (h2 : ¬ st.audioBuffer.flatten.length < SAMPLE_RATE * 8 / 10)
    (h3 : pyStrip raw ≠ "")
    (h4 : isTooSimilar (cleanTranscription (pyStrip raw)) st.lastTranscription = false) :
    processBufferWithText st now raw =
      ({ audioBuffer :=
           if st.audioBuffer.flatten.length > SAMPLE_RATE then
             [st.audioBuffer.flatten.drop (st.audioBuffer.flatten.length - SAMPLE_RATE)]
           else [st.audioBuffer.flatten],
         lastTranscription := cleanTranscription (pyStrip raw),
         lastProcessingTime := now }, some (cleanTranscription (pyStrip raw))) := by
  unfold processBufferWithText
  have h2' : SAMPLE_RATE * 8 / 10 ≤ (st.audioBuffer.map List.length).sum := by
    rw [← List.length_flatten]
    exact Nat.le_of_not_lt h2
  simp [h1, h2, h3, h4, h2']

/-- When the cleaned text is a near-repeat of the previous accepted
transcription, `_process_buffer` returns with the state untouched and
emits nothing. -/
lemma processBuffer_suppressed (st : STTState) (now : Nat) (raw : String)
    (h4 : isTooSimilar (cleanTranscription (pyStrip raw)) st.lastTranscription = true) :
    processBufferWithText st now raw = (st, none) := by
  unfold processBufferWithText
  split_ifs <;> simp_all

/-- C1 counterexample: feeding the recognizer ten frames whose smoothed
finger count is the constant non-zero value 3 commits no token at all (the
first frame only records the value, so `repeat_count` is 9 at the tenth
frame), falsifying "the 10th consecutive stable frame commits exactly one
token"; moreover after 21 identical frames a second token has been
committed even though the smoothed count never changed, falsifying
"further identical frames commit nothing more until the smoothed count
changes". -/
theorem C1_counterexample :
    (gestureRun (List.replicate 10 3)).sentence = "" ∧
    (gestureRun (List.replicate 11 3)).sentence = "RPEPEAT THAT " ∧
    (gestureRun (List.replicate 21 3)).sentence = "RPEPEAT THAT RPEPEAT THAT " := by
  refine ⟨by decide, by decide, by decide⟩

/-- C1 amended: from the initial state (`last_finger_count = -1`,
`repeat_count = 0`), a stream of frames with constant non-zero finger count
`c` (1 ≤ c ≤ 10, so the smoothed count is the constant `c`) commits nothing
during the first 10 frames; the 11th frame commits exactly one token for
`c`; frames 12 through 20 commit nothing further; and the 21st identical
frame commits the same token a second time — the recognizer re-commits
every 10 further identical frames rather than waiting for the count to
change. -/
theorem C1_amended (c : Nat) (h1 : 1 ≤ c) (h2 : c ≤ 10) :
    (∀ n, n ≤ 10 → (gestureRun (List.replicate n c)).sentence = "") ∧
    (gestureRun (List.replicate 11 c)).sentence = signText c ++ " " ∧
    (∀ n, 11 ≤ n → n ≤ 20 →
      (gestureRun (List.replicate n c)).sentence = signText c ++ " ") ∧
    (gestureRun (List.replicate 21 c)).sentence =
      signText c ++ " " ++ (signText c ++ " ") := by
  interval_cases c <;> exact ⟨by decide, by decide, by decide, by decide⟩

/-- Witness for C1 amended at the concrete count 3. -/
theorem C1_amended_witness :
    (1 ≤ 3 ∧ 3 ≤ 10) ∧
    ((∀ n, n ≤ 10 → (gestureRun (List.replicate n 3)).sentence = "") ∧
     (gestureRun (List.replicate 11 3)).sentence = signText 3 ++ " " ∧
     (∀ n, 11 ≤ n → n ≤ 20 →
       (gestureRun (List.replicate n 3)).sentence = signText 3 ++ " ") ∧
     (gestureRun (List.replicate 21 3)).sentence =
       signText 3 ++ " " ++ (signText 3 ++ " ")) :=
  ⟨⟨by decide, by decide⟩, C1_amended 3 (by decide) (by decide)⟩

end ClassroomCore

namespace ClassroomCore

/-- C3 counterexample: the claim cites "the cat sat on the mat" vs.
"the cat sat on the rug" as having similarity 0.5, but the word-set
Jaccard similarity computed by `_is_too_similar` is 4/6 = 2/3 (shared set
{the, cat, sat, on} of size 4 over a six-element set union), not 1/2. -/
theorem C3_counterexample :
    similarity "the cat sat on the mat" "the cat sat on the rug" = 2 / 3 ∧
    (2 / 3 : ℚ) ≠ 1 / 2 := by
  constructor
  · have hi : interCount "the cat sat on the mat" "the cat sat on the rug" = 4 := by decide
    have hu : uniCount "the cat sat on the mat" "the cat sat on the rug" = 6 := by decide
    rw [similarity, hi, hu]
    norm_num
  · norm_num

/-- Length of a single-chunk audio buffer. -/
theorem stateBuffer_flatten (l : List Int) (t : String) (pt : Nat) :
    (STTState.mk [l] t pt).audioBuffer.flatten = l := by
  rw [List.flatten_cons, List.flatten_nil, List.append_nil]

theorem stateBuffer_len (l : List Int) (t : String) (pt : Nat) :
    (STTState.mk [l] t pt).audioBuffer.flatten.length = l.length := by
  rw [stateBuffer_flatten]

/-- Specialization of `processBuffer_emits` to a buffer of at most one
second of audio, which the trim keeps whole. -/
theorem processBuffer_emits_keep (st : STTState) (now : Nat) (raw : String)
    (h1 : st.audioBuffer ≠ [])
    (h2 : ¬ st.audioBuffer.flatten.length < SAMPLE_RATE * 8 / 10)
    (h3 : pyStrip raw ≠ "")
    (h4 : isTooSimilar (cleanTranscription (pyStrip raw)) st.lastTranscription = false)
    (h5 : ¬ st.audioBuffer.flatten.length > SAMPLE_RATE) :
    processBufferWithText st now raw =
      ({ audioBuffer := [st.audioBuffer.flatten],
         lastTranscription := cleanTranscription (pyStrip raw),
         lastProcessingTime := now }, some (cleanTranscription (pyStrip raw))) := by
  rw [processBuffer_emits st now raw h1 h2 h3 h4, if_neg h5]

/-- C3 amended: a newly cleaned transcription is suppressed exactly when
its word-set Jaccard similarity to the previously accepted transcription
exceeds 0.7; feeding the same cleaned text twice in a row suppresses the
second emission, while the pair "the cat sat on the mat" / "the cat sat on
the rug" — whose similarity is 2/3 (not 0.5), still ≤ 0.7 — has both texts
emitted. -/
theorem C3_amended :
    (∀ t1 t2 : String, isTooSimilar t1 t2 = true ↔ similarity t1 t2 > 7 / 10) ∧
    similarity "the cat sat on the mat" "the cat sat on the rug" = 2 / 3 ∧
    processBufferWithText ⟨[List.replicate 16000 0], "", 0⟩ 3 "the cat sat on the mat" =
      (⟨[List.replicate 16000 0], "the cat sat on the mat", 3⟩,
        some "the cat sat on the mat") ∧
    processBufferWithText ⟨[List.replicate 16000 0], "the cat sat on the mat", 3⟩ 6
        "the cat sat on the mat" =
      (⟨[List.replicate 16000 0], "the cat sat on the mat", 3⟩, none) ∧
    processBufferWithText ⟨[List.replicate 16000 0], "the cat sat on the mat", 3⟩ 6
        "the cat sat on the rug" =
      (⟨[List.replicate 16000 0], "the cat sat on the rug", 6⟩,
        some "the cat sat on the rug") := by
  refine ⟨?_, ?_, ?_, ?_, ?_⟩
  · intro t1 t2
    rw [isTooSimilar_eq_natCompare, decide_eq_true_eq]
    by_cases h : uniCount t1 t2 = 0
    · have hi : interCount t1 t2 = 0 :=
        interCount_zero_left (wordSetOf_nil_of_uniCount_zero h)
      rw [hi, h, similarity, hi, h]
      norm_num
    · exact (similarity_gt_iff t1 t2 h).symm
  · have hi : interCount "the cat sat on the mat" "the cat sat on the rug" = 4 := by decide
    have hu : uniCount "the cat sat on the mat" "the cat sat on the rug" = 6 := by decide
    rw [similarity, hi, hu]
    norm_num
  · rw [processBuffer_emits_keep _ 3 "the cat sat on the mat"
      (List.cons_ne_nil _ _)
      (by rw [stateBuffer_len, List.length_replicate]; decide)
      (by decide)
      (by rw [isTooSimilar_eq_natCompare]; decide)
      (by rw [stateBuffer_len, List.length_replicate]; decide)]
    rw [stateBuffer_flatten]
    have hc : cleanTranscription (pyStrip "the cat sat on the mat") =
        "the cat sat on the mat" := by decide
    rw [hc]
  · exact processBuffer_suppressed _ 6 _ (by rw [isTooSimilar_eq_natCompare]; decide)
  · rw [processBuffer_emits_keep _ 6 "the cat sat on the rug"
      (List.cons_ne_nil _ _)
      (by rw [stateBuffer_len, List.length_replicate]; decide)
      (by decide)
      (by rw [isTooSimilar_eq_natCompare]; decide)
      (by rw [stateBuffer_len, List.length_replicate]; decide)]
    rw [stateBuffer_flatten]
    have hc : cleanTranscription (pyStrip "the cat sat on the rug") =
        "the cat sat on the rug" := by decide
    rw [hc]

end ClassroomCore

namespace ClassroomCore

/-- C4 counterexample: with a 20000-sample buffer and previous accepted
transcript "hello world", processing a new near-repeat "hello world"
(similarity 1 > 0.7) returns with the state completely untouched — the
buffer keeps all 20000 samples instead of being trimmed to the 16000-sample
continuity tail, and the dispatch timestamp stays at its old value —
falsifying "the audio buffer is still trimmed to its continuity tail". -/
theorem C4_counterexample :
    processBufferWithText ⟨[List.replicate 20000 0], "hello world", 0⟩ 5 "hello world" =
      (⟨[List.replicate 20000 0], "hello world", 0⟩, none) ∧
    (List.replicate 20000 (0 : Int)).length ≠ SAMPLE_RATE := by
  constructor
  · exact processBuffer_suppressed _ 5 _ (by rw [isTooSimilar_eq_natCompare]; decide)
  · rw [List.length_replicate]
    decide

/-- C4 amended: when the new cleaned transcription is a near-repeat
(Jaccard similarity above 0.7 of the previous accepted transcript),
`_process_buffer` returns early: no text is emitted and the state is left
completely untouched — the buffer is NOT trimmed and the dispatch timestamp
is NOT updated (trimming happens only on the acceptance path). -/
theorem C4_amended (st : STTState) (now : Nat) (raw : String)
    (h : isTooSimilar (cleanTranscription (pyStrip raw)) st.lastTranscription = true) :
    processBufferWithText st now raw = (st, none) :=
  processBuffer_suppressed st now raw h

/-- Witness for C4 amended: the concrete suppressed call of the
counterexample state. -/
theorem C4_amended_witness :
    isTooSimilar (cleanTranscription (pyStrip "hello world"))
      (STTState.mk [List.replicate 20000 0] "hello world" 0).lastTranscription = true ∧
    processBufferWithText ⟨[List.replicate 20000 0], "hello world", 0⟩ 5 "hello world" =
      (⟨[List.replicate 20000 0], "hello world", 0⟩, none) := by
  have h : isTooSimilar (cleanTranscription (pyStrip "hello world"))
      (STTState.mk [List.replicate 20000 0] "hello world" 0).lastTranscription = true := by
    rw [isTooSimilar_eq_natCompare]
    decide
  exact ⟨h, C4_amended _ 5 _ h⟩

/-- C9 confirmed: when no transcription has been accepted yet
(`last_transcription = ""`), `_is_too_similar` returns false for every
candidate text, so the first non-empty stripped transcription is always
emitted (as its cleaned form) regardless of content; Jaccard suppression
can only discard a second or later transcription. -/
theorem C9_first_emission :
    (∀ t : String, isTooSimilar t "" = false) ∧
    ∀ (st : STTState) (now : Nat) (raw : String),
      st.lastTranscription = "" →
      st.audioBuffer ≠ [] →
      ¬ st.audioBuffer.flatten.length < SAMPLE_RATE * 8 / 10 →
      pyStrip raw ≠ "" →
      (processBufferWithText st now raw).2 = some (cleanTranscription (pyStrip raw)) := by
  have hfalse : ∀ t : String, isTooSimilar t "" = false := by
    intro t
    unfold isTooSimilar
    simp
  refine ⟨hfalse, ?_⟩
  intro st now raw hlast h1 h2 h3
  rw [processBuffer_emits st now raw h1 h2 h3 (by rw [hlast]; exact hfalse _)]

/-- Witness for C9 at a concrete one-second buffer and the text "hello". -/
theorem C9_first_emission_witness :
    (STTState.mk [List.replicate 16000 0] "" 0).lastTranscription = "" ∧
    (STTState.mk [List.replicate 16000 0] "" 0).audioBuffer ≠ [] ∧
    ¬ (STTState.mk [List.replicate 16000 0] "" 0).audioBuffer.flatten.length <
        SAMPLE_RATE * 8 / 10 ∧
    pyStrip "hello" ≠ "" ∧
    (processBufferWithText ⟨[List.replicate 16000 0], "", 0⟩ 2 "hello").2 =
      some (cleanTranscription (pyStrip "hello")) := by
  refine ⟨rfl, List.cons_ne_nil _ _,
    (by rw [stateBuffer_len, List.length_replicate]; decide), by decide, ?_⟩
  exact C9_first_emission.2 _ 2 "hello" rfl (List.cons_ne_nil _ _)
    (by rw [stateBuffer_len, List.length_replicate]; decide) (by decide)

end ClassroomCore

namespace ClassroomCore

/-- C2 counterexample: a call to `process_for_visualization` with the
non-empty text "hello world" while a generation is in flight returns
before buffering anything — the word buffer stays empty and the total
word count stays 0 instead of growing by 2 — falsifying "words are
buffered even when ... a generation is in flight". -/
theorem C2_counterexample :
    processForVisualization ⟨[], 0, 0, true⟩ 100 "hello world" = (⟨[], 0, 0, true⟩, none) ∧
    (pySplit "hello world").length = 2 := by
  exact ⟨by decide, by decide⟩

/-- C2 amended: the cooldown / generation-in-flight gate is checked before
any buffering, so a gated call leaves the state untouched and buffers
nothing; only when the gate passes does a call with non-empty text extend
the word buffer with the text's words (minus the leading 20-word chunk
when one is cut) and increase the total processed word count by the number
of words. -/
theorem C2_amended (st : VizState) (now : Nat) (tr : String) :
    ((now - st.lastVisualizationTime < VISUALIZATION_COOLDOWN ∨ st.isGeneratingVisual = true) →
      processForVisualization st now tr = (st, none)) ∧
    (¬ (now - st.lastVisualizationTime < VISUALIZATION_COOLDOWN ∨ st.isGeneratingVisual = true) →
      pySplit tr ≠ [] →
      (processForVisualization st now tr).1.totalWordsProcessed =
        st.totalWordsProcessed + (pySplit tr).length ∧
      ((processForVisualization st now tr).1.wordBuffer = st.wordBuffer ++ pySplit tr ∨
        (processForVisualization st now tr).1.wordBuffer =
          (st.wordBuffer ++ pySplit tr).drop WORD_COUNT_THRESHOLD)) := by
  constructor
  · intro h
    unfold processForVisualization
    rw [if_pos h]
  · intro h hw
    unfold processForVisualization
    rw [if_neg h, if_neg (by simpa using hw)]
    dsimp only
    split_ifs with h1 h2
    · exact ⟨rfl, Or.inr rfl⟩
    · exact ⟨rfl, Or.inl rfl⟩
    · exact ⟨rfl, Or.inl rfl⟩

/-- Witness for C2 amended: a gated call (generation in flight) changes
nothing, and an ungated call buffers both words. -/
theorem C2_amended_witness :
    processForVisualization ⟨[], 0, 0, true⟩ 100 "hello world" = (⟨[], 0, 0, true⟩, none) ∧
    (processForVisualization ⟨[], 0, 20, false⟩ 100 "hello world").1.totalWordsProcessed =
      0 + (pySplit "hello world").length ∧
    ((processForVisualization ⟨[], 0, 20, false⟩ 100 "hello world").1.wordBuffer =
        [] ++ pySplit "hello world" ∨
      (processForVisualization ⟨[], 0, 20, false⟩ 100 "hello world").1.wordBuffer =
        ([] ++ pySplit "hello world").drop WORD_COUNT_THRESHOLD) := by
  refine ⟨(C2_amended ⟨[], 0, 0, true⟩ 100 "hello world").1 (Or.inr rfl), ?_, ?_⟩
  · exact ((C2_amended ⟨[], 0, 20, false⟩ 100 "hello world").2 (by decide) (by decide)).1
  · exact ((C2_amended ⟨[], 0, 20, false⟩ 100 "hello world").2 (by decide) (by decide)).2

/-- C7 confirmed: inserting 11 distinct keys into the empty cache leaves
exactly 10 entries with the first-inserted key (0) absent; in general an
insertion never leaves more than 10 entries (given the invariant held
before), and an insertion of a fresh key into a full 10-entry cache
appends it and evicts exactly the single oldest entry. -/
theorem C7_cache_bound :
    (cacheInsertAll ([] : List (Int × Nat))
        ((List.range 11).map (fun i : Nat => (Int.ofNat i, i)))).length = 10 ∧
    (∀ p ∈ cacheInsertAll ([] : List (Int × Nat))
        ((List.range 11).map (fun i : Nat => (Int.ofNat i, i))), p.1 ≠ 0) ∧
    (∀ (α : Type) (cache : List (Int × α)) (k : Int) (v : α),
      cache.length ≤ 10 → (cacheInsert cache k v).length ≤ 10) ∧
    (∀ (α : Type) (cache : List (Int × α)) (k : Int) (v : α),
      cache.length = 10 → cache.any (fun p => p.1 == k) = false →
      cacheInsert cache k v = (cache ++ [(k, v)]).tail) := by
  refine ⟨by decide, by decide, ?_, ?_⟩
  · intro α cache k v h
    unfold cacheInsert cacheAssign
    dsimp only
    split_ifs <;>
      simp only [List.length_tail, List.length_map, List.length_append,
        List.length_cons, List.length_nil] at * <;> omega
  · intro α cache k v hlen hfresh
    unfold cacheInsert cacheAssign
    dsimp only
    have hc : ¬ (cache.any (fun p => p.1 == k) = true) := by
      rw [hfresh]
      exact Bool.false_ne_true
    rw [if_neg hc, if_pos (by simp [List.length_append, hlen])]

/-- Witness for C7 at a one-entry cache and a full ten-entry cache. -/
theorem C7_cache_bound_witness :
    ([((0 : Int), (0 : Nat))] : List (Int × Nat)).length ≤ 10 ∧
    (cacheInsert [((0 : Int), (0 : Nat))] 1 1).length ≤ 10 ∧
    (((List.range 10).map (fun i : Nat => (Int.ofNat i, i)) : List (Int × Nat)).length = 10 ∧
      ((List.range 10).map (fun i : Nat => (Int.ofNat i, i)) : List (Int × Nat)).any
        (fun p => p.1 == 10) = false ∧
      cacheInsert ((List.range 10).map (fun i : Nat => (Int.ofNat i, i)) : List (Int × Nat)) 10 10 =
        (((List.range 10).map (fun i : Nat => (Int.ofNat i, i)) : List (Int × Nat)) ++
          [(10, 10)]).tail) := by
  refine ⟨by decide, ?_, by decide, by decide, ?_⟩
  · exact C7_cache_bound.2.2.1 Nat _ 1 1 (by decide)
  · exact C7_cache_bound.2.2.2 Nat _ 10 10 (by decide) (by decide)

end ClassroomCore

namespace ClassroomCore

/-! ### Helper lemmas for the transcript pollers -/

lemma teacherTranscriptRun_sound (obs : List String) : ∀ last : String,
    (∀ e ∈ teacherTranscriptRun last obs, e ≠ "") ∧
    List.Chain' (fun a b => a ≠ b) (last :: teacherTranscriptRun last obs) := by
  induction obs with
  | nil =>
    intro last
    exact ⟨by intro e he; simp [teacherTranscriptRun] at he, by simp [teacherTranscriptRun]⟩
  | cons o os ih =>
    intro last
    by_cases h : o ≠ "" ∧ o ≠ last
    · have hstep : transcriptPollStep last o = (o, some o) := by
        unfold transcriptPollStep
        rw [if_pos h]
      have hrun : teacherTranscriptRun last (o :: os) = o :: teacherTranscriptRun o os := by
        simp [teacherTranscriptRun, hstep]
      rw [hrun]
      obtain ⟨ih1, ih2⟩ := ih o
      refine ⟨?_, ?_⟩
      · intro e he
        rcases List.mem_cons.mp he with rfl | hmem
        · exact h.1
        · exact ih1 e hmem
      · rw [List.chain'_cons]
        exact ⟨fun hh => h.2 hh.symm, ih2⟩
    · have hstep : transcriptPollStep last o = (last, none) := by
        unfold transcriptPollStep
        rw [if_neg h]
      have hrun : teacherTranscriptRun last (o :: os) = teacherTranscriptRun last os := by
        simp [teacherTranscriptRun, hstep]
      rw [hrun]
      exact ih last

lemma muteTranscriptRun_nonempty (obs : List String) : ∀ last : String,
    ∀ e ∈ muteTranscriptRun last obs, e ≠ "" := by
  induction obs with
  | nil =>
    intro last e he
    simp [muteTranscriptRun] at he
  | cons o os ih =>
    intro last e he
    rw [show muteTranscriptRun last (o :: os) =
      ((muteTranscriptPollStep last o).2).toList ++
        muteTranscriptRun (muteTranscriptPollStep last o).1 os from rfl] at he
    rcases List.mem_append.mp he with h1 | h2
    · unfold muteTranscriptPollStep at h1
      split_ifs at h1 with ha hb
      · simp at h1
        subst h1
        exact hb
      · simp at h1
      · simp at h1
    · exact ih _ e h2

/-- C6 counterexample: the mute-page variant tracks the last OBSERVED
value, not the last emitted one, so for the observation sequence
["a", "", "a"] it emits "a" twice in a row — falsifying "the poller never
emits the same transcript value twice in a row" for that variant. -/
theorem C6_counterexample :
    muteTranscriptRun "" ["a", "", "a"] = ["a", "a"] ∧
    ¬ List.Chain' (fun x y => x ≠ y) (muteTranscriptRun "" ["a", "", "a"]) := by
  have h : muteTranscriptRun "" ["a", "", "a"] = ["a", "a"] := by decide
  refine ⟨h, ?_⟩
  rw [h]
  intro hc
  exact (List.chain'_cons.mp hc).1 rfl

/-- C6 amended: the teacher-page and deaf-student-page variants satisfy
the claim — over any sequence of polled values they never emit an empty
transcript and never emit the same value twice in a row (they compare
against the last emitted value).  The mute-page variant never emits an
empty transcript either, but it compares against the last observed value,
so it can re-emit the last emitted value after an intervening empty
observation. -/
theorem C6_amended (obs : List String) :
    (∀ e ∈ teacherTranscriptRun "" obs, e ≠ "") ∧
    List.Chain' (fun a b => a ≠ b) (teacherTranscriptRun "" obs) ∧
    (∀ e ∈ muteTranscriptRun "" obs, e ≠ "") := by
  obtain ⟨h1, h2⟩ := teacherTranscriptRun_sound obs ""
  exact ⟨h1, h2.tail, muteTranscriptRun_nonempty obs ""⟩

/-! ### Helper lemmas for the chat pollers -/

lemma emitStudentMessages_sublist (ms : List ChatMessage) : ∀ lastMsg : String,
    (emitStudentMessages lastMsg ms).2.Sublist
      (ms.filter (fun m => decide (m.sender = "student"))) := by
  induction ms with
  | nil =>
    intro lastMsg
    simp [emitStudentMessages]
  | cons m ms ih =>
    intro lastMsg
    by_cases hs : m.sender = "student"
    · have hf : (m :: ms).filter (fun m => decide (m.sender = "student")) =
          m :: ms.filter (fun m => decide (m.sender = "student")) := by
        simp [List.filter_cons, hs]
      rw [hf]
      unfold emitStudentMessages
      rw [if_pos hs]
      by_cases hm : m.message ≠ lastMsg
      · rw [if_pos hm]
        exact (ih m.message).cons₂ m
      · rw [if_neg hm]
        exact (ih lastMsg).cons m
    · have hf : (m :: ms).filter (fun m => decide (m.sender = "student")) =
          ms.filter (fun m => decide (m.sender = "student")) := by
        simp [List.filter_cons, hs]
      rw [hf]
      unfold emitStudentMessages
      rw [if_neg hs]
      exact ih lastMsg

lemma emitStudentMessages_all (ms : List ChatMessage) : ∀ lastMsg : String,
    List.Chain' (fun a b => a ≠ b)
      (lastMsg :: (ms.filter (fun m => decide (m.sender = "student"))).map
        ChatMessage.message) →
    (emitStudentMessages lastMsg ms).2 =
      ms.filter (fun m => decide (m.sender = "student")) := by
  induction ms with
  | nil =>
    intro lastMsg _
    simp [emitStudentMessages]
  | cons m ms ih =>
    intro lastMsg h
    by_cases hs : m.sender = "student"
    · have hf : (m :: ms).filter (fun m => decide (m.sender = "student")) =
          m :: ms.filter (fun m => decide (m.sender = "student")) := by
        simp [List.filter_cons, hs]
      rw [hf] at h ⊢
      rw [List.map_cons] at h
      have h1 := (List.chain'_cons.mp h).1
      have h2 := (List.chain'_cons.mp h).2
      unfold emitStudentMessages
      rw [if_pos hs, if_pos (Ne.symm h1)]
      exact congrArg (m :: ·) (ih m.message h2)
    · have hf : (m :: ms).filter (fun m => decide (m.sender = "student")) =
          ms.filter (fun m => decide (m.sender = "student")) := by
        simp [List.filter_cons, hs]
      rw [hf] at h ⊢
      unfold emitStudentMessages
      rw [if_neg hs]
      exact ih lastMsg h

/-- C5 counterexample: in the teacher-facing variant, a chat log growing
from length 0 to 2 with two student messages bearing the same text "hi"
emits only the first of them (the `last_chat_message` text dedup drops the
second), not the full appended slice [L0, L1) — falsifying "emits exactly
the newly appended messages at indices [L0, L1), each once ... restricted
to messages whose sender is the counterpart role". -/
theorem C5_counterexample :
    (teacherChatPoll ⟨0, ""⟩ [⟨"student", "hi"⟩, ⟨"student", "hi"⟩]).2 =
      [⟨"student", "hi"⟩] ∧
    ([⟨"student", "hi"⟩] : List ChatMessage).length ≠
      (([⟨"student", "hi"⟩, ⟨"student", "hi"⟩] : List ChatMessage).filter
        (fun m => decide (m.sender = "student"))).length := by
  exact ⟨by decide, by decide⟩

/-- C5 amended: the deaf-student variant emits exactly the appended slice
[L0, L1), once each, and records the new length; with no growth it emits
nothing.  The teacher variant emits a subsequence of the student-filtered
appended slice — exactly that filtered slice when no text equals its
predecessor in the chain starting at the tracked `last_chat_message`
(consecutive duplicate texts are additionally dropped) — its observed
count never decreases, and emissions always come from the appended slice,
so earlier indices are never re-emitted. -/
theorem C5_amended :
    (∀ (L0 : Nat) (chat : List ChatMessage), L0 < chat.length →
      (deafChatPoll L0 chat).2 = chat.drop L0 ∧
      (deafChatPoll L0 chat).1 = chat.length ∧
      ∀ i : Nat, (deafChatPoll L0 chat).2[i]? = chat[L0 + i]?) ∧
    (∀ (L0 : Nat) (chat : List ChatMessage), ¬ L0 < chat.length →
      deafChatPoll L0 chat = (L0, [])) ∧
    (∀ (st : TeacherChatState) (chat : List ChatMessage),
      (teacherChatPoll st chat).2.Sublist
        ((chat.drop st.lastChatCount).filter (fun m => decide (m.sender = "student")))) ∧
    (∀ (st : TeacherChatState) (chat : List ChatMessage),
      st.lastChatCount ≤ (teacherChatPoll st chat).1.lastChatCount) ∧
    (∀ (st : TeacherChatState) (chat : List ChatMessage),
      List.Chain' (fun a b => a ≠ b)
        (st.lastChatMessage ::
          ((chat.drop st.lastChatCount).filter
            (fun m => decide (m.sender = "student"))).map ChatMessage.message) →
      chat.length > st.lastChatCount →
      (teacherChatPoll st chat).2 =
        (chat.drop st.lastChatCount).filter (fun m => decide (m.sender = "student"))) := by
  refine ⟨?_, ?_, ?_, ?_, ?_⟩
  · intro L0 chat h
    unfold deafChatPoll
    rw [if_pos h]
    refine ⟨rfl, rfl, ?_⟩
    intro i
    exact List.getElem?_drop chat L0 i
  · intro L0 chat h
    unfold deafChatPoll
    rw [if_neg h]
  · intro st chat
    unfold teacherChatPoll
    split_ifs with h
    · exact emitStudentMessages_sublist _ _
    · simp
  · intro st chat
    unfold teacherChatPoll
    split_ifs with h
    · exact Nat.le_of_lt h
    · exact Nat.le_refl _
  · intro st chat hch hgt
    unfold teacherChatPoll
    rw [if_pos hgt]
    exact emitStudentMessages_all _ _ hch

/-- Witness for C5 amended: a one-message growth on the deaf variant and a
two-distinct-text growth on the teacher variant. -/
theorem C5_amended_witness :
    (0 < ([⟨"student", "hi"⟩] : List ChatMessage).length ∧
      (deafChatPoll 0 [⟨"student", "hi"⟩]).2 =
        ([⟨"student", "hi"⟩] : List ChatMessage).drop 0) ∧
    (teacherChatPoll ⟨0, ""⟩ [⟨"student", "x"⟩, ⟨"student", "y"⟩]).2 =
      (([⟨"student", "x"⟩, ⟨"student", "y"⟩] : List ChatMessage).drop 0).filter
        (fun m => decide (m.sender = "student")) := by
  constructor
  · exact ⟨by decide, (C5_amended.1 0 [⟨"student", "hi"⟩] (by decide)).1⟩
  · refine C5_amended.2.2.2.2 ⟨0, ""⟩ [⟨"student", "x"⟩, ⟨"student", "y"⟩] ?_ (by decide)
    refine List.chain'_cons.mpr ⟨by decide, ?_⟩
    refine List.chain'_cons.mpr ⟨by decide, ?_⟩
    exact List.chain'_singleton _

end ClassroomCore

namespace ClassroomCore

/-! ### Helper lemmas for the speech output queue -/

lemma ttsScheduleFrom_map_fst (ws : List String) : ∀ t : ℚ,
    (ttsScheduleFrom t ws).map Prod.fst = ws := by
  induction ws with
  | nil => intro t; rfl
  | cons w ws ih =>
    intro t
    rw [show ttsScheduleFrom t (w :: ws) =
      (w, t) :: ttsScheduleFrom (t + ttsDelay w) ws from rfl]
    rw [List.map_cons, ih]

lemma ttsScheduleFrom_spacing (ws : List String) : ∀ t : ℚ,
    List.Chain' (fun a b => b.2 = a.2 + ttsDelay a.1) (ttsScheduleFrom t ws) := by
  induction ws with
  | nil => intro t; simp [ttsScheduleFrom]
  | cons w ws ih =>
    intro t
    rw [show ttsScheduleFrom t (w :: ws) =
      (w, t) :: ttsScheduleFrom (t + ttsDelay w) ws from rfl]
    rw [List.chain'_cons']
    refine ⟨?_, ih (t + ttsDelay w)⟩
    intro b hb
    cases ws with
    | nil => simp [ttsScheduleFrom] at hb
    | cons w2 ws2 =>
      rw [show ttsScheduleFrom (t + ttsDelay w) (w2 :: ws2) =
        (w2, t + ttsDelay w) :: ttsScheduleFrom (t + ttsDelay w + ttsDelay w2) ws2
        from rfl] at hb
      simp at hb
      rw [← hb]

/-- C8 counterexample: enqueuing ["a", "bb", "ccc"] produces synthesis
calls for ["bb", "ccc"] only — "a" is rejected by `speak` (length ≤ 1
after stripping) and never reaches the synthesizer — falsifying
"synthesis calls observed in that exact order" for all three words. -/
theorem C8_counterexample :
    (ttsSchedule (["a", "bb", "ccc"].foldl ttsEnqueue [])).map Prod.fst = ["bb", "ccc"] ∧
    (["bb", "ccc"] : List String) ≠ ["a", "bb", "ccc"] := by
  constructor
  · rw [ttsSchedule, ttsScheduleFrom_map_fst]
    decide
  · decide

/-- C8 amended: `speak` appends only strings longer than one character
after stripping (so "a" is dropped); the enqueued words are synthesized in
exact FIFO order, each call starting one full pacing delay
(0.5 s + 0.1 s per character) after the previous call; concretely,
enqueuing ["a", "bb", "ccc"] yields calls for "bb" at time 0 and "ccc" at
time 0.7 = delay("bb"). -/
theorem C8_amended :
    (∀ (q : List String) (w : String),
      ¬ (pyStrip w ≠ "" ∧ (pyStrip w).length > 1) → ttsEnqueue q w = q) ∧
    (∀ (q : List String) (w : String),
      pyStrip w ≠ "" → (pyStrip w).length > 1 → ttsEnqueue q w = q ++ [pyStrip w]) ∧
    (∀ (t : ℚ) (ws : List String), (ttsScheduleFrom t ws).map Prod.fst = ws) ∧
    (∀ (t : ℚ) (ws : List String),
      List.Chain' (fun a b => b.2 = a.2 + ttsDelay a.1) (ttsScheduleFrom t ws)) ∧
    ttsSchedule (["a", "bb", "ccc"].foldl ttsEnqueue []) = [("bb", 0), ("ccc", 7 / 10)] ∧
    ttsDelay "bb" = 7 / 10 := by
  have hd : ttsDelay "bb" = 7 / 10 := by
    rw [ttsDelay, show ("bb" : String).length = 2 from rfl]
    norm_num
  refine ⟨?_, ?_, ?_, ?_, ?_, hd⟩
  · intro q w h
    unfold ttsEnqueue
    rw [if_neg h]
  · intro q w h1 h2
    unfold ttsEnqueue
    rw [if_pos ⟨h1, h2⟩]
  · intro t ws
    exact ttsScheduleFrom_map_fst ws t
  · intro t ws
    exact ttsScheduleFrom_spacing ws t
  · have hq : ["a", "bb", "ccc"].foldl ttsEnqueue [] = ["bb", "ccc"] := by decide
    rw [ttsSchedule, hq]
    rw [show ttsScheduleFrom (0 : ℚ) ["bb", "ccc"] =
      ("bb", (0 : ℚ)) :: ("ccc", 0 + ttsDelay "bb") :: [] from rfl]
    rw [hd]
    norm_num

/-- Witness for C8 amended: "a" is rejected at enqueue, "ccc" is appended. -/
theorem C8_amended_witness :
    (¬ (pyStrip "a" ≠ "" ∧ (pyStrip "a").length > 1) ∧ ttsEnqueue [] "a" = []) ∧
    (pyStrip "ccc" ≠ "" ∧ (pyStrip "ccc").length > 1 ∧
      ttsEnqueue ["bb"] "ccc" = ["bb"] ++ [pyStrip "ccc"]) := by
  exact ⟨⟨by decide, C8_amended.1 [] "a" (by decide)⟩,
    by decide, by decide, C8_amended.2.1 ["bb"] "ccc" (by decide) (by decide)⟩

/-- C10 confirmed: the deaf student's join operation patches only the
fields `deaf_student_name` and `last_updated` of the matched session; all
other fields — in particular `student_name` and `student_transcript` —
are unchanged, so the teacher-side poller's student-name check (which
fires only when the observed name differs from the tracked one) emits
nothing for a session changed by a join alone. -/
theorem C10_join_frame (s : Session) (name : String) (now : Int) :
    (applyPatch s (joinUpdateData name now)).student_name = s.student_name ∧
    (applyPatch s (joinUpdateData name now)).student_transcript = s.student_transcript ∧
    (applyPatch s (joinUpdateData name now)).session_code = s.session_code ∧
    (applyPatch s (joinUpdateData name now)).current_transcript = s.current_transcript ∧
    (applyPatch s (joinUpdateData name now)).chat_messages = s.chat_messages ∧
    (applyPatch s (joinUpdateData name now)).deaf_student_name = name ∧
    (applyPatch s (joinUpdateData name now)).last_updated = now ∧
    (namePollStep s.student_name
      (applyPatch s (joinUpdateData name now)).student_name).2 = none := by
  refine ⟨rfl, rfl, rfl, rfl, rfl, rfl, rfl, ?_⟩
  simp [namePollStep, applyPatch, joinUpdateData]

end ClassroomCore
